import Mathlib

/-!
Verification of the srer repository: a browser map widget (two JavaScript
variants, src/static/js/application.js and src/unnamed/part_000) that fetches
rain-gage records from a GraphQL endpoint and drops one marker per record on a
map, and a station-photo scraping pipeline described by the specification.

The widget code is embedded shallowly: the GraphQL response is a nested
edges/node record, the jQuery done callback becomes a function from a response
to the list of markers it adds, and the single getJSON call becomes a constant
list of request URLs. JavaScript numbers are carried opaquely as integers
(no arithmetic is ever performed on them). Apostrophes and braces inside
string literals are written with \x escapes.
-/

namespace Srer

/-- One gage node of the GraphQL response: fields id, latitude, longitude,
code, name, exactly the fields named by the fixed query string. -/
structure GageNode where
  id : String
  latitude : Int
  longitude : Int
  code : String
  name : String
  deriving DecidableEq

/-- One element of response.data.raingages.edges: a wrapper holding a node. -/
structure GageEdge where
  node : GageNode
  deriving DecidableEq

/-- The raingages object of the response: an edges collection. -/
structure Raingages where
  edges : List GageEdge
  deriving DecidableEq

/-- The data object of the GraphQL response. -/
structure ResponseData where
  raingages : Raingages
  deriving DecidableEq

/-- A GraphQL response as both widget variants consume it. -/
structure GraphQLResponse where
  data : ResponseData
  deriving DecidableEq

/-- A Leaflet marker as the widgets configure it: the coordinate pair passed
to L.marker, the optional title attribute, and the optional bound popup HTML.
application.js sets neither title nor popup; part_000 sets both. -/
structure Marker where
  coords : Int × Int
  title : Option String
  popup : Option String
  deriving DecidableEq

/-- baseUrl constant, identical in both widget variants. -/
def baseUrl : String := "http://127.0.0.1:8000/api/graphql?query="

/-- raingageQry constant, identical in both widget variants. -/
def raingageQry : String :=
  "\x7b raingages \x7b edges \x7b node \x7b id latitude longitude code name \x7d \x7d \x7d \x7d"

/-- The full request URL both variants pass to getJSON, as one literal. -/
def fullRequestUrl : String :=
  "http://127.0.0.1:8000/api/graphql?query=\x7b raingages \x7b edges \x7b node \x7b id latitude longitude code name \x7d \x7d \x7d \x7d"

/-- HTTP GET requests issued by application.js on one page load: the single
getJSON call with the constant URL, independent of any input or state. -/
def applicationJsRequests : List String := [ baseUrl ++ raingageQry ]

/-- HTTP GET requests issued by part_000 on one page load: the single getJSON
call with the same constant URL. -/
def part000Requests : List String := [ baseUrl ++ raingageQry ]

/-- The done callback of src/static/js/application.js: for each edge g of
response.data.raingages.edges, in order, add a marker at
[g.node.latitude, g.node.longitude] with no title and no popup. -/
def applicationJsMarkers (response : GraphQLResponse) : List Marker :=
  response.data.raingages.edges.map fun g =>
    { coords := (g.node.latitude, g.node.longitude), title := none, popup := none }

/-- The markerPopup helper of src/unnamed/part_000: builds the popup HTML by
string concatenation, starting from the empty string and appending the three
div lines of the source. The second and third lines both use the label
Latitude followed by a colon, as in the source. -/
def markerPopup (gage : GageEdge) : String :=
  "" ++ ("<div><a id=\x27" ++ gage.node.id
      ++ "\x27 href=\x27#\x27 class=\x27gage-popup\x27 data-name=\x27"
      ++ gage.node.name ++ "\x27>" ++ gage.node.name ++ "</a></div>")
     ++ ("<div>Latitude: " ++ toString gage.node.latitude ++ "</div>")
     ++ ("<div>Latitude: " ++ toString gage.node.longitude ++ "</div>")

/-- The done callback of src/unnamed/part_000: for each edge g, in order, add
a marker at [g.node.latitude, g.node.longitude] with title g.node.name and
bind the popup produced by markerPopup g. -/
def part000Markers (response : GraphQLResponse) : List Marker :=
  response.data.raingages.edges.map fun g =>
    { coords := (g.node.latitude, g.node.longitude),
      title := some g.node.name,
      popup := some (markerPopup g) }

/-- The DOM state the gage-popup click handler touches: the inner HTML of the
element with id gage-name. -/
structure GagePage where
  gageNameHtml : String
  deriving DecidableEq

/-- The jQuery html setter on the gage-name element: replaces its content. -/
def setGageNameHtml (content : String) (page : GagePage) : GagePage :=
  { page with gageNameHtml := content }

/-- The click handler bound to elements of class gage-popup in part_000:
sets the gage-name HTML to the empty string, then to the text Gage: followed
by the data-name value of the clicked element, and returns false, which
suppresses the default link navigation. The Bool component is the handler
return value. -/
def gagePopupClick (dataName : String) (page : GagePage) : GagePage × Bool :=
  (setGageNameHtml ("Gage: " ++ dataName) (setGageNameHtml ("") page), false)

/-! Substring occurrence counting, used to state the popup-label claims. -/

/-- Whether the pattern occurs as a prefix at the head of the text. -/
def matchHere : List Char → List Char → Bool
  | [], _ => true
  | _ :: _, [] => false
  | p :: ps, c :: cs => p == c && matchHere ps cs

/-- Number of positions, the end position included, at which the pattern
occurs in the text. -/
def occCount : List Char → List Char → Nat
  | pat, [] => if matchHere pat [] then 1 else 0
  | pat, c :: cs => (if matchHere pat (c :: cs) then 1 else 0) + occCount pat cs

/-- Number of occurrences of the pattern string inside the text string. -/
def occCountStr (pat s : String) : Nat := occCount pat.data s.data

/-- Whether the pattern string occurs inside the text string. -/
def containsSub (pat s : String) : Bool := occCountStr pat s != 0

/-! The fixed text of the popup template, split at exactly the literal
boundaries of the source concatenation in markerPopup. -/

/-- Fixed popup text before the node id. -/
def popupSegA : String := "<div><a id=\x27"

/-- Fixed popup text between the node id and the first use of the name. -/
def popupSegB : String := "\x27 href=\x27#\x27 class=\x27gage-popup\x27 data-name=\x27"

/-- Fixed popup text between the two uses of the name. -/
def popupSegC : String := "\x27>"

/-- Fixed popup text closing the anchor line. -/
def popupSegD : String := "</a></div>"

/-- The duplicated label of the second and third popup lines. -/
def latLabel : String := "Latitude: "

/-- The label the third popup line was presumably meant to carry. -/
def lonLabel : String := "Longitude"

/-- Fixed popup text opening each of the two coordinate lines. -/
def popupSegE : String := "<div>Latitude: "

/-- Fixed popup text closing each of the two coordinate lines. -/
def popupSegF : String := "</div>"

/-- All fixed template text of the popup, in output order. -/
def popupFixedText : String :=
  popupSegA ++ popupSegB ++ popupSegC ++ popupSegD ++ popupSegE ++ popupSegF
    ++ popupSegE ++ popupSegF

/-- Erases the code field of every gage node of a response, leaving every
other field unchanged: two responses differ only in code fields exactly when
they agree under this map. -/
def eraseCode (r : GraphQLResponse) : GraphQLResponse :=
  { data := { raingages := { edges := r.data.raingages.edges.map fun e =>
      { node := { id := e.node.id, latitude := e.node.latitude,
                  longitude := e.node.longitude, code := "",
                  name := e.node.name } } } } }

/-- The name of the code field, as it appears in the query string. -/
def codeField : String := "code"

/-- Forgets the title and popup of a marker, keeping its coordinates. -/
def stripExtras (m : Marker) : Marker :=
  { coords := m.coords, title := none, popup := none }

/-!
The station-photo scraping pipeline (Station List Loader, Metadata Scraper,
Image Downloader) is described by the specification but its code is not under
src, so it is modelled from the specification here.
-/

/-- Modelled from the spec: a PhotoRecord (section 3), one extracted unit —
station identifier, archive number (may be absent), image URL (optional, may
be relative or malformed), summary text (may be empty), direction. -/
structure PhotoRecord where
  stationId : String
  archiveNo : Option String
  imageUrl : Option String
  summary : String
  direction : String
  deriving DecidableEq

/-- Modelled from the spec: one photo entry on a station page — an element
matching the fixed structural marker, whose nested sub-elements (archive
reference, image reference, summary text, direction label) may each be
missing. -/
structure PhotoEntry where
  archiveRef : Option String
  imageRef : Option String
  summaryText : Option String
  directionLabel : Option String
  deriving DecidableEq

/-- Modelled from the spec: a fetched station page, reduced to the list of
elements matching the fixed structural marker, in page order. -/
structure StationPage where
  entries : List PhotoEntry
  deriving DecidableEq

/-- Modelled from the spec: the outcome of one HTTP page fetch — a parsed
page on success, or failure covering network errors and non-success HTTP
statuses alike. -/
inductive FetchOutcome where
  | success (page : StationPage)
  | failure
  deriving DecidableEq

/-- Modelled from the spec: the Station List Loader (section 4.1) — given the
delimited file, produce the station identifiers in file order, with no
deduplication and no validation. The file is modelled as the list of its
delimited entries. -/
def loadStations (entries : List String) : List String := entries

/-- Modelled from the spec: the fixed URL template of the Metadata Scraper
(section 4.2 step 1); the exact template text is not under src, so a
representative constant prefix stands for it. -/
def stationUrlBase : String := "https://upstream.example/station/"

/-- Modelled from the spec: the page URL for one station, obtained by
interpolating the station identifier into the fixed template. -/
def pageUrl (sid : String) : String := stationUrlBase ++ sid

/-- Modelled from the spec: extraction of one PhotoRecord from one matched
element (section 4.2 step 4) — each missing nested sub-element yields an
empty or absent field value, and the record is kept. -/
def extractRecord (sid : String) (e : PhotoEntry) : PhotoRecord :=
  { stationId := sid, archiveNo := e.archiveRef, imageUrl := e.imageRef,
    summary := e.summaryText.getD (""), direction := e.directionLabel.getD ("") }

/-- Modelled from the spec: the Metadata Scraper on one station (section 4.2
steps 2 to 5) — on fetch failure, log and contribute no records; on success,
one PhotoRecord per matched element, in page order. -/
def scrapeStation (fetch : String → FetchOutcome) (sid : String) :
    List PhotoRecord :=
  match fetch (pageUrl sid) with
  | .failure => []
  | .success page => page.entries.map (extractRecord sid)

/-- Modelled from the spec: the full scraper run over the loaded station
sequence, strictly sequential — the first component lists the page URLs
fetched, one per list entry in order; the second accumulates all extracted
records. The run is a total function: no failure raises to the caller. -/
def scrapeRun (fetch : String → FetchOutcome) :
    List String → List String × List PhotoRecord
  | [] => ([], [])
  | sid :: rest =>
    let tail := scrapeRun fetch rest
    (pageUrl sid :: tail.fst, scrapeStation fetch sid ++ tail.snd)

/-- Modelled from the spec: the minimal well-formedness check of the Image
Downloader (section 4.3 step 3) — resolvable to an absolute URL. -/
def isAbsoluteUrl (u : String) : Bool :=
  matchHere ("http://").data u.data || matchHere ("https://").data u.data

/-- Modelled from the spec: whether a record image URL is usable — present,
non-empty and resolvable to an absolute URL. -/
def usableUrl (u : Option String) : Bool :=
  match u with
  | none => false
  | some s => s != "" && isAbsoluteUrl s

/-- Modelled from the spec: the HTTP fetch calls the Image Downloader makes
for one record — none when the image URL is absent or fails the
well-formedness check (skip without error), one otherwise. -/
def fetchCallsFor (r : PhotoRecord) : List String :=
  match r.imageUrl with
  | none => []
  | some u => if usableUrl (some u) then [u] else []

/-- Modelled from the spec: the HTTP fetch calls of one Image Downloader run
over the MetadataStore sequence, record by record in order. -/
def downloaderFetches : List PhotoRecord → List String
  | [] => []
  | r :: rest => fetchCallsFor r ++ downloaderFetches rest

/-! Concrete inputs used by the witness theorems. -/

/-- A concrete response holding one gage whose code field is RG1. -/
def respX : GraphQLResponse :=
  { data := { raingages := { edges :=
      [ { node := { id := "17", latitude := 31, longitude := -110,
                    code := "RG1", name := "Gage A" } } ] } } }

/-- The same concrete response with the code field changed to RG2. -/
def respY : GraphQLResponse :=
  { data := { raingages := { edges :=
      [ { node := { id := "17", latitude := 31, longitude := -110,
                    code := "RG2", name := "Gage A" } } ] } } }

/-- A concrete station page: one entry with every sub-element missing and one
fully populated entry. -/
def pageSeven : StationPage :=
  { entries :=
      [ { archiveRef := none, imageRef := none, summaryText := none,
          directionLabel := none },
        { archiveRef := some ("A1"),
          imageRef := some ("http://photos.example/7/a.jpg"),
          summaryText := some ("caption"), directionLabel := some ("N") } ] }

/-- A concrete fetch environment: station 7 succeeds with pageSeven, every
other URL fails. -/
def fetchSeven : String → FetchOutcome := fun u =>
  if u = pageUrl ("7") then .success pageSeven else .failure

/-- The station page of the spec scenario for station 101: two matching
structural markers, one with a valid image URL and one with none. -/
def pageScenario101 : StationPage :=
  { entries :=
      [ { archiveRef := some ("001"),
          imageRef := some ("http://photos.example/101/photo1.jpg"),
          summaryText := some ("summary one"), directionLabel := some ("N") },
        { archiveRef := none, imageRef := none, summaryText := none,
          directionLabel := none } ] }

/-- The fetch environment of the spec scenario: the page for station 101
succeeds, every other fetch (in particular station 205) times out. -/
def fetchScenario : String → FetchOutcome := fun u =>
  if u = pageUrl ("101") then .success pageScenario101 else .failure

/-- A concrete record whose image URL is relative, hence malformed under the
minimal well-formedness check. -/
def relativeRecord : PhotoRecord :=
  { stationId := "101", archiveNo := none,
    imageUrl := some ("images/photo1.jpg"), summary := "", direction := "" }

/-- A concrete record with a usable absolute image URL. -/
def absoluteRecord : PhotoRecord :=
  { stationId := "101", archiveNo := none,
    imageUrl := some ("http://photos.example/101/photo1.jpg"),
    summary := "s", direction := "N" }

/-! Helper lemmas shared by the claim theorems. -/

/-- Erasing code fields does not change the markers application.js adds. -/
theorem applicationJsMarkers_eraseCode (r : GraphQLResponse) :
    applicationJsMarkers (eraseCode r) = applicationJsMarkers r := by
  simp [applicationJsMarkers, eraseCode, List.map_map, Function.comp]

/-- Erasing code fields does not change the markers part_000 adds. -/
theorem part000Markers_eraseCode (r : GraphQLResponse) :
    part000Markers (eraseCode r) = part000Markers r := by
  simp [part000Markers, eraseCode, List.map_map, Function.comp, markerPopup]

/-- The downloader fetch list distributes over store concatenation. -/
theorem downloaderFetches_append (a b : List PhotoRecord) :
    downloaderFetches (a ++ b)
      = downloaderFetches a ++ downloaderFetches b := by
  induction a with
  | nil => simp [downloaderFetches]
  | cons r rest ih => simp [downloaderFetches, ih]

/-- The scraper fetches exactly the page URL of each station, in order. -/
theorem scrapeRun_fst (fetch : String → FetchOutcome) (l : List String) :
    (scrapeRun fetch l).fst = l.map pageUrl := by
  induction l with
  | nil => simp [scrapeRun]
  | cons s rest ih => simp [scrapeRun, ih]

/-- The scraper record accumulation distributes over list concatenation. -/
theorem scrapeRun_snd_append (fetch : String → FetchOutcome)
    (a b : List String) :
    (scrapeRun fetch (a ++ b)).snd
      = (scrapeRun fetch a).snd ++ (scrapeRun fetch b).snd := by
  induction a with
  | nil => simp [scrapeRun]
  | cons s rest ih => simp [scrapeRun, ih, List.append_assoc]

/-! The claim theorems. -/

/-- Claim C1: for every GraphQL response whose data.raingages.edges collection
contains E gage records, each widget variant adds exactly E markers, one per
record, each placed at the coordinate pair [latitude, longitude] taken from
that record node, in edge order. -/
theorem marker_per_edge_record (response : GraphQLResponse) :
    (applicationJsMarkers response).length
      = response.data.raingages.edges.length
  ∧ (applicationJsMarkers response).map Marker.coords
      = response.data.raingages.edges.map
          (fun g => (g.node.latitude, g.node.longitude))
  ∧ (part000Markers response).length
      = response.data.raingages.edges.length
  ∧ (part000Markers response).map Marker.coords
      = response.data.raingages.edges.map
          (fun g => (g.node.latitude, g.node.longitude)) := by
  refine ⟨?_, ?_, ?_, ?_⟩ <;>
    simp [applicationJsMarkers, part000Markers, List.map_map, Function.comp]

/-- Claim C2: each widget variant issues exactly one HTTP GET per page load,
and the request URL is the constant concatenation of the fixed base URL with
the fixed query string, independent of any input or state (both are constants
of the embedding). -/
theorem single_constant_request :
    applicationJsRequests = [ fullRequestUrl ]
  ∧ part000Requests = [ fullRequestUrl ]
  ∧ fullRequestUrl = baseUrl ++ raingageQry
  ∧ applicationJsRequests.length = 1
  ∧ part000Requests.length = 1 := by
  refine ⟨by decide, by decide, by decide, rfl, rfl⟩

set_option maxRecDepth 8192 in
/-- Claim C3, counterexample: the claim states that the string Longitude
never appears in the markerPopup output, but a gage whose name field is the
string Longitude makes it appear, since the name is interpolated verbatim. -/
theorem popup_longitude_appears :
    containsSub lonLabel (markerPopup
      { node := { id := "g1", latitude := 31, longitude := -110,
                  code := "RG1", name := "Longitude" } }) = true := by decide

/-- Claim C3, amended: for every gage record, markerPopup returns the fixed
template text interpolated with the node id, the name twice, and the two
coordinate values; each coordinate line opens with the label Latitude
followed by a colon and the value (popupSegE ends in that label); the fixed
template text contains the label exactly twice and never contains Longitude.
The string Longitude can appear in the output only through the record id or
name values. -/
theorem popup_duplicate_latitude_label (gage : GageEdge) :
    markerPopup gage
      = popupSegA ++ gage.node.id ++ popupSegB ++ gage.node.name ++ popupSegC
          ++ gage.node.name ++ popupSegD ++ popupSegE
          ++ toString gage.node.latitude ++ popupSegF ++ popupSegE
          ++ toString gage.node.longitude ++ popupSegF
  ∧ popupSegE = "<div>" ++ latLabel
  ∧ occCountStr latLabel popupFixedText = 2
  ∧ containsSub lonLabel popupFixedText = false := by
  refine ⟨?_, by decide, by decide, by decide⟩
  apply String.ext
  simp [markerPopup, popupSegA, popupSegB, popupSegC, popupSegD, popupSegE,
        popupSegF, String.data_append, List.append_assoc]

/-- Claim C8: two GraphQL responses that differ only in the code field of
their gage nodes (that is, agree after the code fields are erased) produce
identical observable widget behaviour in both variants — the same markers,
with the same coordinates, titles and popup HTML; yet the code field is
requested by the fixed query string. -/
theorem code_field_noninterference (r1 r2 : GraphQLResponse)
    (h : eraseCode r1 = eraseCode r2) :
    applicationJsMarkers r1 = applicationJsMarkers r2
  ∧ part000Markers r1 = part000Markers r2
  ∧ containsSub codeField raingageQry = true := by
  refine ⟨?_, ?_, by decide⟩
  · rw [← applicationJsMarkers_eraseCode r1, h, applicationJsMarkers_eraseCode r2]
  · rw [← part000Markers_eraseCode r1, h, part000Markers_eraseCode r2]

/-- Witness for claim C8 at two concrete responses differing only in code. -/
theorem code_field_noninterference_witness :
    eraseCode respX = eraseCode respY
  ∧ (applicationJsMarkers respX = applicationJsMarkers respY
     ∧ part000Markers respX = part000Markers respY
     ∧ containsSub codeField raingageQry = true) :=
  ⟨by decide, code_field_noninterference respX respY (by decide)⟩

/-- Claim C9: for every GraphQL response, the two widget variants add the
same sequence of marker coordinate pairs; application.js sets no title and
no popup, while part_000 additionally sets the node name as title and binds
the markerPopup HTML, so the variants agree after stripping those extras. -/
theorem variants_same_coordinates (r : GraphQLResponse) :
    (applicationJsMarkers r).map Marker.coords
      = (part000Markers r).map Marker.coords
  ∧ applicationJsMarkers r = (part000Markers r).map stripExtras
  ∧ (part000Markers r).map Marker.title
      = r.data.raingages.edges.map (fun g => some g.node.name)
  ∧ (part000Markers r).map Marker.popup
      = r.data.raingages.edges.map (fun g => some (markerPopup g))
  ∧ (applicationJsMarkers r).map Marker.title
      = r.data.raingages.edges.map (fun _ => (none : Option String))
  ∧ (applicationJsMarkers r).map Marker.popup
      = r.data.raingages.edges.map (fun _ => (none : Option String)) := by
  refine ⟨?_, ?_, ?_, ?_, ?_, ?_⟩ <;>
    simp [applicationJsMarkers, part000Markers, stripExtras, List.map_map,
          Function.comp_def]

/-- Claim C10: clicking a gage-popup element replaces the whole content of
the gage-name element with the text Gage: followed by the data-name value,
returns false so the default link navigation is suppressed, and a second
click with the same data-name leaves the state exactly as after the first. -/
theorem gage_popup_click_idempotent (dataName : String) (page : GagePage) :
    (gagePopupClick dataName page).fst.gageNameHtml = "Gage: " ++ dataName
  ∧ (gagePopupClick dataName page).snd = false
  ∧ gagePopupClick dataName (gagePopupClick dataName page).fst
      = gagePopupClick dataName page := by
  exact ⟨rfl, rfl, rfl⟩

/-- Claim C4: for every station identifier list of length N, duplicates
included, the Metadata Scraper issues exactly N page fetch attempts, one per
list entry in list order, and the Station List Loader deduplicates nothing. -/
theorem one_fetch_per_station_entry (fetch : String → FetchOutcome)
    (idList : List String) :
    loadStations idList = idList
  ∧ (scrapeRun fetch (loadStations idList)).fst = idList.map pageUrl
  ∧ (scrapeRun fetch (loadStations idList)).fst.length = idList.length := by
  refine ⟨rfl, ?_, ?_⟩
  · rw [scrapeRun_fst]; rfl
  · rw [scrapeRun_fst]; simp [loadStations]

/-- Claim C5: when the page fetch for a station succeeds with a page holding
K elements matching the structural marker, exactly K PhotoRecords are
produced for that station, one per element in order; an element with every
nested sub-element missing still yields a record, with absent archive number
and image URL and empty summary and direction. -/
theorem one_record_per_structural_marker (fetch : String → FetchOutcome)
    (sid : String) (page : StationPage)
    (h : fetch (pageUrl sid) = .success page) :
    scrapeStation fetch sid = page.entries.map (extractRecord sid)
  ∧ (scrapeStation fetch sid).length = page.entries.length
  ∧ extractRecord sid
      { archiveRef := none, imageRef := none, summaryText := none,
        directionLabel := none }
      = { stationId := sid, archiveNo := none, imageUrl := none,
          summary := "", direction := "" } := by
  refine ⟨?_, ?_, rfl⟩
  · simp [scrapeStation, h]
  · simp [scrapeStation, h]

/-- Witness for claim C5 at a concrete fetch environment and station page. -/
theorem one_record_per_structural_marker_witness :
    fetchSeven (pageUrl ("7")) = .success pageSeven
  ∧ (scrapeStation fetchSeven ("7")
       = pageSeven.entries.map (extractRecord ("7"))
     ∧ (scrapeStation fetchSeven ("7")).length = pageSeven.entries.length
     ∧ extractRecord ("7")
         { archiveRef := none, imageRef := none, summaryText := none,
           directionLabel := none }
         = { stationId := "7", archiveNo := none, imageUrl := none,
             summary := "", direction := "" }) :=
  ⟨by decide, one_record_per_structural_marker fetchSeven ("7") pageSeven (by decide)⟩

/-- Claim C6: a PhotoRecord whose image URL is absent, empty, or not
resolvable to an absolute URL causes zero HTTP fetch calls in the Image
Downloader, and the run over any store containing it equals the run over the
surrounding records — processing continues, nothing is raised. -/
theorem unusable_url_never_fetched (r : PhotoRecord)
    (pre post : List PhotoRecord) (h : usableUrl r.imageUrl = false) :
    fetchCallsFor r = []
  ∧ downloaderFetches (pre ++ r :: post)
      = downloaderFetches pre ++ downloaderFetches post := by
  have hr : fetchCallsFor r = [] := by
    cases hi : r.imageUrl with
    | none => simp [fetchCallsFor, hi]
    | some u => rw [hi] at h; simp [fetchCallsFor, hi, h]
  refine ⟨hr, ?_⟩
  rw [downloaderFetches_append]
  simp [downloaderFetches, hr]

/-- Witness for claim C6 at a concrete record with a relative image URL. -/
theorem unusable_url_never_fetched_witness :
    usableUrl relativeRecord.imageUrl = false
  ∧ (fetchCallsFor relativeRecord = []
     ∧ downloaderFetches ([ absoluteRecord ] ++ relativeRecord :: [])
         = downloaderFetches [ absoluteRecord ] ++ downloaderFetches []) :=
  ⟨by decide, unusable_url_never_fetched relativeRecord [ absoluteRecord ] [] (by decide)⟩

set_option maxRecDepth 8192 in
/-- Claim C7: a station whose page fetch fails contributes zero PhotoRecords,
the run continues with the next station and completes (the scraper is a total
function); in the spec scenario with stations 101 and 205 where 205 times
out, the resulting store holds exactly the two records of station 101, one
with a populated image URL and one with none. -/
theorem failed_station_contributes_nothing (fetch : String → FetchOutcome)
    (pre post : List String) (sid : String)
    (h : fetch (pageUrl sid) = .failure) :
    scrapeStation fetch sid = []
  ∧ (scrapeRun fetch (pre ++ sid :: post)).snd
      = (scrapeRun fetch pre).snd ++ (scrapeRun fetch post).snd
  ∧ (scrapeRun fetchScenario (loadStations [ "101", "205" ])).snd
      = [ { stationId := "101", archiveNo := some ("001"),
            imageUrl := some ("http://photos.example/101/photo1.jpg"),
            summary := "summary one", direction := "N" },
          { stationId := "101", archiveNo := none, imageUrl := none,
            summary := "", direction := "" } ] := by
  have hs : scrapeStation fetch sid = [] := by simp [scrapeStation, h]
  refine ⟨hs, ?_, by decide⟩
  rw [scrapeRun_snd_append]
  simp [scrapeRun, hs]

set_option maxRecDepth 8192 in
/-- Witness for claim C7 at the spec scenario fetch environment, with the
timed-out station 205 as the failing station. -/
theorem failed_station_contributes_nothing_witness :
    fetchScenario (pageUrl ("205")) = .failure
  ∧ (scrapeStation fetchScenario ("205") = []
     ∧ (scrapeRun fetchScenario ([ "101" ] ++ ("205") :: [])).snd
         = (scrapeRun fetchScenario [ "101" ]).snd
             ++ (scrapeRun fetchScenario []).snd
     ∧ (scrapeRun fetchScenario (loadStations [ "101", "205" ])).snd
         = [ { stationId := "101", archiveNo := some ("001"),
               imageUrl := some ("http://photos.example/101/photo1.jpg"),
               summary := "summary one", direction := "N" },
             { stationId := "101", archiveNo := none, imageUrl := none,
               summary := "", direction := "" } ]) :=
  ⟨by decide,
   failed_station_contributes_nothing fetchScenario [ "101" ] [] ("205") (by decide)⟩

end Srer
